import Mathlib

/-!
Verification development for the Notes feature of the Oppia front end.

The TypeScript sources are shallowly embedded: each service or component
method becomes a Lean function on an explicit state record, the synchronous
part of an asynchronous operation is a function returning the new state
together with the list of externally observable actions it performs
(HTTP requests issued, callbacks invoked, events emitted), and the promise
resolution and rejection handlers registered by a method are separate
functions applied when the corresponding fetch settles.

JavaScript numbers are embedded as Int, nullable numbers as Option Int,
and the possibly-uninitialized offset field of the search service
(declared with a definite-assignment assertion in the source, so it can be
undefined, null, or a number at run time) as a dedicated three-way type.
-/

/-- Summary of a note as held client side.  Modelled from the spec:
the NoteSummary model class itself is not part of this slice; the spec data
model section lists its fields (id, authorUsername, displayedAuthorName,
title, subtitle, summaryText, urlFragment, lastUpdated, publishedOn),
identity given by id. -/
structure NoteSummary where
  id : String
  authorUsername : String
  displayedAuthorName : String
  title : String
  subtitle : String
  summary : String
  urlFragment : String
  lastUpdated : Option String
  publishedOn : Option String
deriving DecidableEq, Repr

/-- Truthiness of a JavaScript number-or-null value: null is falsy and the
number 0 is falsy, every other number is truthy. -/
def jsTruthyOptInt : Option Int → Bool
  | none => false
  | some n => n ≠ 0

/-- Array.prototype.slice with integer arguments: negative indices count
from the end, both indices are clamped to the array bounds, and the
element at the end index is excluded. -/
def jsSlice {α : Type} (l : List α) (start stop : Int) : List α :=
  let len : Int := l.length
  let s : Int := if start < 0 then max (len + start) 0 else min start len
  let e : Int := if stop < 0 then max (len + stop) 0 else min stop len
  (l.drop s.toNat).take (e - s).toNat

/-- First index (or -1) of an element in a list, as Array.prototype.indexOf
returns it; the source applies it to object references, embedded here as
values of a type with decidable equality. -/
def jsIndexOf {α : Type} [DecidableEq α] (l : List α) (x : α) : Int :=
  match l with
  | [] => -1
  | a :: t =>
      if a = x then 0
      else
        let r := jsIndexOf t x
        if r = -1 then -1 else r + 1

/-- Array.prototype.splice(index, 1): remove the single element at the
given nonnegative index. -/
def jsSpliceRemoveOne {α : Type} (l : List α) (i : Nat) : List α :=
  l.take i ++ l.drop (i + 1)

namespace NoteModel

/-- Backend dictionary for a full note, field names as in the JSON
contract (snake case). -/
structure NoteBackendDict where
  id : String
  displayed_author_name : String
  title : String
  subtitle : String
  content : String
  url_fragment : String
  last_updated : Option String
  published_on : Option String
deriving DecidableEq, Repr

/-- Client-side note domain object (class NoteData of note.model.ts);
the underscore-prefixed private fields with their getters and setters are
embedded as plain record fields. -/
structure NoteData where
  id : String
  displayedAuthorName : String
  title : String
  subtitle : String
  content : String
  urlFragment : String
  lastUpdated : Option String
  publishedOn : Option String
deriving DecidableEq, Repr

/-- NoteData.createFromBackendDict: a pure field rename from snake case
to camel case. -/
def createFromBackendDict (d : NoteBackendDict) : NoteData :=
  { id := d.id
    displayedAuthorName := d.displayed_author_name
    title := d.title
    subtitle := d.subtitle
    content := d.content
    urlFragment := d.url_fragment
    lastUpdated := d.last_updated
    publishedOn := d.published_on }

/-- Modelled from the spec: AppConstants.MIN_CHARS_IN_NOTE_TITLE is not in
this slice; the spec gives the valid title length range as 5 to 65. -/
def MIN_CHARS_IN_NOTE_TITLE : Nat := 5

/-- Modelled from the spec: AppConstants.MAX_CHARS_IN_NOTE_TITLE is not in
this slice; the spec gives the valid title length range as 5 to 65. -/
def MAX_CHARS_IN_NOTE_TITLE : Nat := 65

/-- NoteData.validate.  The compiled regular expression built from
AppConstants.VALID_NOTE_TITLE_REGEX (a constant not in this slice) is
passed in as the test function on strings; the chain of checks and the
exact issue messages follow the source. -/
def validate (validTitleTest : String → Bool) (note : NoteData) : List String :=
  let titleIssues : List String :=
    if note.title = "" then
      ["Note title should not be empty."]
    else if ¬ validTitleTest note.title then
      ["Note title contains invalid characters."]
    else if note.title.length < MIN_CHARS_IN_NOTE_TITLE then
      ["Note title should not be less than " ++
        toString MIN_CHARS_IN_NOTE_TITLE ++ " characters."]
    else if note.title.length > MAX_CHARS_IN_NOTE_TITLE then
      ["Note title should not be more than " ++
        toString MAX_CHARS_IN_NOTE_TITLE ++ " characters."]
    else []
  let contentIssues : List String :=
    if note.content = "" then ["Note content should not be empty."] else []
  titleIssues ++ contentIssues

end NoteModel

namespace NoteUpdate

/-- NoteChangeDict of the note update service: an object with optional
keys title, subtitle and content; a key is present exactly when the field
holds some value. -/
structure NoteChangeDict where
  title : Option String
  subtitle : Option String
  content : Option String
deriving DecidableEq, Repr

/-- The empty change dictionary, the initial value of the service field
and the value restored by setNoteChangeDictToDefault. -/
def emptyChangeDict : NoteChangeDict :=
  { title := none, subtitle := none, content := none }

/-- One call to a mutator of NoteUpdateService. -/
inductive NoteMutation where
  | setNoteTitle (title : String)
  | setNoteSubtitle (subtitle : String)
  | setNoteContent (content : String)
deriving DecidableEq, Repr

/-- Apply one mutator call: each of setNoteTitle, setNoteSubtitle and
setNoteContent writes the new value both into the note object and into the
corresponding key of the change dictionary, touching nothing else. -/
def applyMutation (st : NoteModel.NoteData × NoteChangeDict)
    (m : NoteMutation) : NoteModel.NoteData × NoteChangeDict :=
  match m with
  | NoteMutation.setNoteTitle t =>
      ({ st.1 with title := t }, { st.2 with title := some t })
  | NoteMutation.setNoteSubtitle s =>
      ({ st.1 with subtitle := s }, { st.2 with subtitle := some s })
  | NoteMutation.setNoteContent c =>
      ({ st.1 with content := c }, { st.2 with content := some c })

/-- Apply a sequence of mutator calls in order. -/
def applyMutations (st : NoteModel.NoteData × NoteChangeDict)
    (ms : List NoteMutation) : NoteModel.NoteData × NoteChangeDict :=
  ms.foldl applyMutation st

/-- Step function recording the most recent title mutation. -/
def titleStep (acc : Option String) (m : NoteMutation) : Option String :=
  match m with
  | NoteMutation.setNoteTitle t => some t
  | _ => acc

/-- Step function recording the most recent subtitle mutation. -/
def subtitleStep (acc : Option String) (m : NoteMutation) : Option String :=
  match m with
  | NoteMutation.setNoteSubtitle s => some s
  | _ => acc

/-- Step function recording the most recent content mutation. -/
def contentStep (acc : Option String) (m : NoteMutation) : Option String :=
  match m with
  | NoteMutation.setNoteContent c => some c
  | _ => acc

/-- Value of the last setNoteTitle call in a sequence, if any. -/
def lastSetTitle (ms : List NoteMutation) : Option String :=
  ms.foldl titleStep none

/-- Value of the last setNoteSubtitle call in a sequence, if any. -/
def lastSetSubtitle (ms : List NoteMutation) : Option String :=
  ms.foldl subtitleStep none

/-- Value of the last setNoteContent call in a sequence, if any. -/
def lastSetContent (ms : List NoteMutation) : Option String :=
  ms.foldl contentStep none

end NoteUpdate

namespace NotesPage

/-- NoteData of the notes page backend service: the dashboard payload with
both summary lists and both counters. -/
structure NoteData where
  displayedAuthorName : String
  numOfPublishedNotes : Int
  numOfDraftNotes : Int
  publishedNoteSummaryDicts : List NoteSummary
  draftNoteSummaryDicts : List NoteSummary
deriving DecidableEq, Repr

/-- NotesPageComponent.unpublishedNotesPost: look the summary up in the
published list by reference, splice it out when found, unshift it onto the
draft list, and adjust both counters by one. -/
def unpublishedNotesPost (nd : NoteData) (noteSummary : NoteSummary) :
    NoteData :=
  let summaryDicts := nd.publishedNoteSummaryDicts
  let index := jsIndexOf summaryDicts noteSummary
  let summaryDicts :=
    if index > -1 then jsSpliceRemoveOne summaryDicts index.toNat
    else summaryDicts
  { nd with
    publishedNoteSummaryDicts := summaryDicts
    draftNoteSummaryDicts := noteSummary :: nd.draftNoteSummaryDicts
    numOfDraftNotes := nd.numOfDraftNotes + 1
    numOfPublishedNotes := nd.numOfPublishedNotes - 1 }

end NotesPage

namespace NoteSearch

/-- Run-time value of the search service offset field.  The field is
declared as number-or-null with a definite-assignment assertion, so before
the first successful query it is undefined; afterwards it is null or a
number. -/
inductive OffsetVal where
  | undef
  | null
  | num (n : Int)
deriving DecidableEq, Repr

/-- Convert the number-or-null offset of a backend response into the value
stored in the service field. -/
def ofNullable : Option Int → OffsetVal
  | none => OffsetVal.null
  | some n => OffsetVal.num n

/-- Truthiness of the offset field as JavaScript evaluates it: undefined
and null are falsy, a number is falsy exactly when it is zero. -/
def offsetTruthy : OffsetVal → Bool
  | OffsetVal.undef => false
  | OffsetVal.null => false
  | OffsetVal.num n => n ≠ 0

/-- String coercion of the offset field as JavaScript string
concatenation performs it. -/
def offsetToString : OffsetVal → String
  | OffsetVal.undef => "undefined"
  | OffsetVal.null => "null"
  | OffsetVal.num n => toString n

/-- Parsed form of a search response (SearchResponseData): the next
offset, null when no further pages exist, and the page of summaries. -/
structure SearchResponseData where
  searchOffset : Option Int
  noteSummariesList : List NoteSummary
deriving DecidableEq, Repr

/-- Mutable state of one NotePostSearchService instance.  The lastQuery
field is undefined (none) until the first successful query resolves. -/
structure ServiceState where
  lastQuery : Option String
  searchOffset : OffsetVal
  isCurrentlyFetchingResults : Bool
  numSearchesInProgress : Int
deriving DecidableEq, Repr

/-- State of a freshly constructed service instance. -/
def initialServiceState : ServiceState :=
  { lastQuery := none
    searchOffset := OffsetVal.undef
    isCurrentlyFetchingResults := false
    numSearchesInProgress := 0 }

/-- Externally observable actions of the service and the home page
component: HTTP requests handed to the backend API service, invocations of
the callbacks supplied by callers, the initial-results event emission, and
warnings raised through the alerts service. -/
inductive Action where
  | httpFetch (queryUrl : String)
  | successCb
  | errorCb (reason : String)
  | failureCb (lastPageReached : Bool)
  | emitInitialResults (response : SearchResponseData)
  | loadMoreSuccessCb (data : SearchResponseData)
  | addWarning (msg : String)
deriving DecidableEq, Repr

/-- Count of HTTP requests in an action list. -/
def countFetch (as : List Action) : Nat :=
  (as.filter fun a =>
    match a with
    | Action.httpFetch _ => true
    | _ => false).length

/-- Count of success-callback invocations in an action list. -/
def countSuccessCb (as : List Action) : Nat :=
  (as.filter fun a =>
    match a with
    | Action.successCb => true
    | _ => false).length

/-- Stand-in for the browser primitive encodeURIComponent.  The exact
percent encoding is external to this repository and no claim depends on
it; only which requests are issued matters, so it is embedded as the
identity on strings. -/
def encodeURIComponent (s : String) : String := s

/-- NotePostSearchService.hasReachedLastPage: strict equality of the
offset field with null, so an undefined offset does not count. -/
def hasReachedLastPage (s : ServiceState) : Bool :=
  s.searchOffset = OffsetVal.null

/-- NotePostSearchService.getQueryUrl. -/
def getQueryUrl (searchUrlQueryString : String) : String :=
  "?q=" ++ searchUrlQueryString

/-- NotePostSearchService.getSearchUrlQueryString. -/
def getSearchUrlQueryString (searchQuery : String) : String :=
  encodeURIComponent searchQuery

/-- NotePostSearchService.getCurrentUrlQueryString; reading the lastQuery
field before any query succeeded yields undefined, which the string
encoder coerces to the string undefined. -/
def getCurrentUrlQueryString (s : ServiceState) : String :=
  getSearchUrlQueryString (s.lastQuery.getD "undefined")

/-- Synchronous part of NotePostSearchService.executeSearchQuery: build
the query URL, set the in-flight flag, increment the in-progress counter,
hand the request to the backend service, and then invoke the success
callback directly, before the fetch settles.  The success callback
parameter is not optional, so its guard is always passed. -/
def executeSearchQuery (s : ServiceState) (searchQuery : String) :
    ServiceState × List Action :=
  let queryUrl := getQueryUrl (getSearchUrlQueryString searchQuery)
  ({ s with
      isCurrentlyFetchingResults := true
      numSearchesInProgress := s.numSearchesInProgress + 1 },
   [Action.httpFetch queryUrl, Action.successCb])

/-- Resolution handler registered by executeSearchQuery: record the query
and the new offset, decrement the in-progress counter, emit the
initial-results event, and clear the in-flight flag. -/
def executeSearchQueryOnSuccess (s : ServiceState) (searchQuery : String)
    (response : SearchResponseData) : ServiceState × List Action :=
  ({ s with
      lastQuery := some searchQuery
      searchOffset := ofNullable response.searchOffset
      numSearchesInProgress := s.numSearchesInProgress - 1
      isCurrentlyFetchingResults := false },
   [Action.emitInitialResults response])

/-- Rejection handler registered by executeSearchQuery: decrement the
in-progress counter and invoke the error callback when one was supplied;
the query, the offset and the in-flight flag are not touched. -/
def executeSearchQueryOnError (s : ServiceState) (hasErrorCallback : Bool)
    (reason : String) : ServiceState × List Action :=
  ({ s with numSearchesInProgress := s.numSearchesInProgress - 1 },
   if hasErrorCallback then [Action.errorCb reason] else [])

/-- Synchronous part of NotePostSearchService.loadMoreData: when a fetch
is already in flight or the last page was reached, invoke the failure
callback (when supplied) with whether the last page was reached and do
nothing else; otherwise build the query URL from the stored query,
append the offset parameter when the stored offset is truthy, set the
in-flight flag and hand the request to the backend service. -/
def loadMoreData (s : ServiceState) (hasFailureCallback : Bool) :
    ServiceState × List Action :=
  if s.isCurrentlyFetchingResults || hasReachedLastPage s then
    (s, if hasFailureCallback then
          [Action.failureCb (hasReachedLastPage s)]
        else [])
  else
    let queryUrl := getQueryUrl (getCurrentUrlQueryString s)
    let queryUrl :=
      if offsetTruthy s.searchOffset then
        queryUrl ++ "&offset=" ++ offsetToString s.searchOffset
      else queryUrl
    ({ s with isCurrentlyFetchingResults := true },
     [Action.httpFetch queryUrl])

/-- Resolution handler registered by loadMoreData: store the new offset,
clear the in-flight flag and invoke the success callback with the data. -/
def loadMoreDataOnSuccess (s : ServiceState) (data : SearchResponseData) :
    ServiceState × List Action :=
  ({ s with
      searchOffset := ofNullable data.searchOffset
      isCurrentlyFetchingResults := false },
   [Action.loadMoreSuccessCb data])

/-- Effect of a rejected fetch on loadMoreData: the single-argument then
call in the source registers no rejection handler, so a rejected fetch
runs no code in the service at all: the state, in particular the
in-flight flag, is unchanged and no callback is invoked. -/
def loadMoreDataOnReject (s : ServiceState) : ServiceState × List Action :=
  (s, [])

/-- Fold a sequence of loadMoreData calls, collecting the action list of
each call; each element of the input says whether that call supplied a
failure callback. -/
def loadMoreDataSeq (s : ServiceState) :
    List Bool → ServiceState × List (List Action)
  | [] => (s, [])
  | b :: bs =>
      let step := loadMoreData s b
      let rest := loadMoreDataSeq step.1 bs
      (rest.1, step.2 :: rest.2)

end NoteSearch

namespace NoteHomePage

open NoteSearch

/-- Parsed payload of the note home page list endpoint
(NoteHomePageData). -/
structure NoteHomePageData where
  numOfPublishedNotes : Int
  noteSummaryDicts : List NoteSummary
deriving DecidableEq, Repr

/-- Modelled from the spec: the list endpoint URL template
(NoteHomePageConstants.NOTE_HOMEPAGE_DATA_URL_TEMPLATE) is not in this
slice; the spec describes a list endpoint taking an offset query
parameter.  Its exact value is irrelevant to the claims. -/
def NOTE_HOMEPAGE_DATA_URL_TEMPLATE : String := "/notehomepagehandler/data"

/-- Mutable state of one NoteHomePageComponent instance, restricted to the
fields the pagination logic reads or writes. -/
structure ComponentState where
  noteSummaries : List NoteSummary
  noteSummariesToShow : List NoteSummary
  page : Int
  firstPostOnPageNum : Int
  lastPostOnPageNum : Int
  totalNotes : Int
  searchOffset : Option Int
  noResultsFound : Bool
  showNoteCardsLoadingScreen : Bool
  searchPageIsActive : Bool
deriving DecidableEq, Repr

/-- NoteHomePageComponent.calculateFirstPostOnPageNum: store the one-based
index of the first post of the given page. -/
def calculateFirstPostOnPageNum (c : ComponentState)
    (pageNum pageSize : Int) : ComponentState :=
  { c with firstPostOnPageNum := (pageNum - 1) * pageSize + 1 }

/-- NoteHomePageComponent.calculateLastPostOnPageNum: store the one-based
index of the last post of the given page, capped by the total count. -/
def calculateLastPostOnPageNum (c : ComponentState)
    (pageNum pageSize : Int) : ComponentState :=
  { c with lastPostOnPageNum := min (pageNum * pageSize) c.totalNotes }

/-- NoteHomePageComponent.selectNoteSummariesToShow: slice the buffer from
the zero-based position of the first post up to, exclusively, the stored
last index. -/
def selectNoteSummariesToShow (c : ComponentState) : ComponentState :=
  { c with
    noteSummariesToShow :=
      jsSlice c.noteSummaries (c.firstPostOnPageNum - 1)
        c.lastPostOnPageNum }

/-- NoteHomePageComponent.loadSearchResultsPageData: append the page to
the buffer, store the new offset, recompute the total (one more than the
buffer length while a truthy offset promises more pages), recompute the
last index for the current page with the search page size, reslice, and
clear the cards loading screen.  The search page size constant is not in
this slice and is passed in. -/
def loadSearchResultsPageData (maxSearchCards : Int) (c : ComponentState)
    (data : SearchResponseData) : ComponentState :=
  let c := { c with
    noteSummaries := c.noteSummaries ++ data.noteSummariesList
    searchOffset := data.searchOffset }
  let c := { c with
    totalNotes :=
      if jsTruthyOptInt c.searchOffset then
        (c.noteSummaries.length : Int) + 1
      else (c.noteSummaries.length : Int) }
  let c := calculateLastPostOnPageNum c c.page maxSearchCards
  let c := selectNoteSummariesToShow c
  { c with showNoteCardsLoadingScreen := false }

/-- Subscriber registered in ngOnInit on the initial-search-results event:
clear the buffer, reset the page number and the first index, then either
record that nothing was found or load the first page of results. -/
def onInitialSearchResultsLoadedHandler (maxSearchCards : Int)
    (c : ComponentState) (response : SearchResponseData) : ComponentState :=
  let c := { c with
    noteSummaries := []
    page := 1
    firstPostOnPageNum := 1 }
  if response.noteSummariesList.length > 0 then
    loadSearchResultsPageData maxSearchCards
      { c with noResultsFound := false } response
  else
    { c with noResultsFound := true }

/-- Synchronous part of NoteHomePageComponent.loadMoreNoteSummaries: hand
one list request for the given offset to the backend service. -/
def loadMoreNoteSummaries (c : ComponentState) (offset : Int) :
    ComponentState × List Action :=
  (c,
   [Action.httpFetch
      (NOTE_HOMEPAGE_DATA_URL_TEMPLATE ++ "?offset=" ++ toString offset)])

/-- Resolution handler registered by loadMoreNoteSummaries: append the
received summaries, reslice, recompute the last index with the home page
size (passed in, the constant is not in this slice), and clear the cards
loading screen.  It issues no further request. -/
def loadMoreNoteSummariesOnSuccess (maxHomeCards : Int)
    (c : ComponentState) (data : NoteHomePageData) :
    ComponentState × List Action :=
  let c := { c with
    noteSummaries := c.noteSummaries ++ data.noteSummaryDicts }
  let c := selectNoteSummariesToShow c
  let c := calculateLastPostOnPageNum c c.page maxHomeCards
  (({ c with showNoteCardsLoadingScreen := false } : ComponentState), [])

/-- NoteHomePageComponent.loadPage: when the buffer is shorter than the
first index of the requested page, show the cards loading screen and
delegate to exactly one loader, the plain list loader on the home feed or
the search service on the search page (supplying both the success and the
failure callback); otherwise serve the page by slicing the buffer. -/
def loadPage (c : ComponentState) (svc : ServiceState) :
    ComponentState × ServiceState × List Action :=
  if (c.noteSummaries.length : Int) < c.firstPostOnPageNum then
    let c := { c with showNoteCardsLoadingScreen := true }
    if ¬ c.searchPageIsActive then
      let step := loadMoreNoteSummaries c (c.firstPostOnPageNum - 1)
      (step.1, svc, step.2)
    else
      let step := NoteSearch.loadMoreData svc true
      (c, step.1, step.2)
  else
    (selectNoteSummariesToShow c, svc, [])

end NoteHomePage

/-- Concrete summary used by the evaluation witnesses. -/
def sampleSummary (n : Nat) : NoteSummary :=
  { id := "id" ++ toString n
    authorUsername := "user"
    displayedAuthorName := "user name"
    title := "a title"
    subtitle := "a subtitle"
    summary := "a summary"
    urlFragment := "frag"
    lastUpdated := none
    publishedOn := none }

/-- Concrete notes page payload used by the evaluation witnesses. -/
def sampleNotesPageData : NotesPage.NoteData :=
  { displayedAuthorName := "user name"
    numOfPublishedNotes := 2
    numOfDraftNotes := 1
    publishedNoteSummaryDicts := [sampleSummary 0, sampleSummary 1]
    draftNoteSummaryDicts := [sampleSummary 2] }

/-- Concrete component state builder used by the evaluation witnesses. -/
def sampleComponent (sums : List NoteSummary) (firstIdx : Int)
    (searchActive : Bool) : NoteHomePage.ComponentState :=
  { noteSummaries := sums
    noteSummariesToShow := []
    page := 1
    firstPostOnPageNum := firstIdx
    lastPostOnPageNum := 0
    totalNotes := 0
    searchOffset := some 0
    noResultsFound := false
    showNoteCardsLoadingScreen := false
    searchPageIsActive := searchActive }

/-- Concrete seven-element buffer used by the evaluation witnesses. -/
def sampleBuffer7 : List NoteSummary :=
  [sampleSummary 0, sampleSummary 1, sampleSummary 2, sampleSummary 3,
    sampleSummary 4, sampleSummary 5, sampleSummary 6]

section Theorems

open NoteSearch NoteHomePage

/-- Helper: with the offset at null, loadMoreData returns the state
unchanged and only invokes the failure callback with true. -/
lemma loadMoreData_terminal (s : ServiceState)
    (h : hasReachedLastPage s = true) (b : Bool) :
    loadMoreData s b =
      (s, if b then [Action.failureCb true] else []) := by
  simp [loadMoreData, h]

/-- Helper: with the in-flight flag set, loadMoreData returns the state
unchanged and only invokes the failure callback. -/
lemma loadMoreData_inFlight (s : ServiceState)
    (h : s.isCurrentlyFetchingResults = true) (b : Bool) :
    loadMoreData s b =
      (s, if b then [Action.failureCb (hasReachedLastPage s)] else []) := by
  simp [loadMoreData, h]

/-- C10: executeSearchQuery invokes its success callback exactly once,
synchronously within the call itself, right after handing the request to
the backend and before the fetch settles; neither the resolution handler
nor the rejection handler invokes it again, so it fires even when the
fetch subsequently fails and does not signal that results arrived. -/
theorem claim_C10_success_callback_synchronous
    (s : ServiceState) (q : String) :
    (executeSearchQuery s q).2 =
      [Action.httpFetch (getQueryUrl (getSearchUrlQueryString q)),
        Action.successCb] ∧
    countSuccessCb (executeSearchQuery s q).2 = 1 ∧
    (∀ r : SearchResponseData,
      countSuccessCb (executeSearchQueryOnSuccess s q r).2 = 0) ∧
    (∀ (hasCb : Bool) (reason : String),
      countSuccessCb (executeSearchQueryOnError s hasCb reason).2 = 0) := by
  refine ⟨rfl, rfl, fun r => rfl, fun hasCb reason => ?_⟩
  cases hasCb <;> rfl

/-- C1 counterexample: right after executeSearchQuery issues a fetch on a
fresh instance the in-flight flag is set, yet a second executeSearchQuery
call in that state is not ignored: it issues a second HTTP request. -/
theorem claim_C1_counterexample :
    countFetch (executeSearchQuery initialServiceState "a").2 = 1 ∧
    (executeSearchQuery
        initialServiceState "a").1.isCurrentlyFetchingResults = true ∧
    countFetch
      (executeSearchQuery
        (executeSearchQuery initialServiceState "a").1 "b").2 = 1 := by
  exact ⟨rfl, rfl, rfl⟩

/-- C1 amended: the in-flight guard protects only loadMoreData: while a
fetch is outstanding, a loadMoreData call issues no HTTP request and
leaves the service state unchanged (neither queued nor cancelling),
whereas executeSearchQuery always issues a request, even while another
fetch is outstanding. -/
theorem claim_C1_guard_only_on_loadMoreData
    (svc : ServiceState) (hasFail : Bool) (q : String)
    (h : svc.isCurrentlyFetchingResults = true) :
    countFetch (loadMoreData svc hasFail).2 = 0 ∧
    (loadMoreData svc hasFail).1 = svc ∧
    countFetch (executeSearchQuery svc q).2 = 1 := by
  rw [loadMoreData_inFlight svc h hasFail]
  refine ⟨?_, rfl, rfl⟩
  cases hasFail <;> rfl

/-- C1 witness: the guard theorem applied to a concrete in-flight
state. -/
theorem claim_C1_guard_witness :
    countFetch
      (loadMoreData (ServiceState.mk (some "x") (OffsetVal.num 2) true 1)
        true).2 = 0 ∧
    (loadMoreData (ServiceState.mk (some "x") (OffsetVal.num 2) true 1)
        true).1 =
      ServiceState.mk (some "x") (OffsetVal.num 2) true 1 ∧
    countFetch
      (executeSearchQuery
        (ServiceState.mk (some "x") (OffsetVal.num 2) true 1) "y").2 = 1 :=
  claim_C1_guard_only_on_loadMoreData
    (ServiceState.mk (some "x") (OffsetVal.num 2) true 1) true "y" rfl

/-- C2 counterexample: a loadMoreData call in a quiescent state issues a
fetch, but when that fetch rejects, no code of the service runs: no error
or failure callback is invoked (the then call registers no rejection
handler), and the in-flight flag even remains set. -/
theorem claim_C2_counterexample :
    countFetch
      (loadMoreData (ServiceState.mk (some "q") (OffsetVal.num 5) false 0)
        true).2 = 1 ∧
    loadMoreDataOnReject
      (loadMoreData (ServiceState.mk (some "q") (OffsetVal.num 5) false 0)
        true).1 =
      ((loadMoreData (ServiceState.mk (some "q") (OffsetVal.num 5) false 0)
          true).1, []) ∧
    (loadMoreData (ServiceState.mk (some "q") (OffsetVal.num 5) false 0)
        true).1.isCurrentlyFetchingResults = true := by
  exact ⟨rfl, rfl, rfl⟩

/-- C2 amended: when the fetch issued by executeSearchQuery rejects, the
error callback is invoked with the failure reason, the stored query and
offset are unchanged, and no initial-results event is emitted, so the
accumulated buffer (which only the event subscriber modifies) stays at its
last good state; when the fetch issued by loadMoreData rejects, the
buffer, the stored query and the offset likewise stay unchanged, but the
error is not reported to the caller: the promise has no rejection handler,
so nothing runs and the in-flight flag remains set. -/
theorem claim_C2_error_paths (s : ServiceState) (reason : String) :
    ((executeSearchQueryOnError s true reason).1.lastQuery = s.lastQuery ∧
     (executeSearchQueryOnError s true reason).1.searchOffset =
       s.searchOffset ∧
     (executeSearchQueryOnError s true reason).2 =
       [Action.errorCb reason]) ∧
    loadMoreDataOnReject s = (s, []) := by
  exact ⟨⟨rfl, rfl, rfl⟩, rfl⟩

/-- C3: once the stored offset is null, the terminal state is sticky:
over any sequence of loadMoreData calls the state never changes and the
action trace of each call is exactly the invocation of the failure
callback with true (last page reached) when that call supplied one and
empty otherwise — in particular no call issues an HTTP request — and only
the resolution of a new executeSearchQuery writes a fresh offset. -/
theorem claim_C3_terminal_state_sticky (s : ServiceState)
    (h : hasReachedLastPage s = true) (calls : List Bool) :
    (loadMoreDataSeq s calls).1 = s ∧
    (loadMoreDataSeq s calls).2 =
      calls.map (fun b => if b then [Action.failureCb true] else []) ∧
    (∀ as ∈ (loadMoreDataSeq s calls).2, countFetch as = 0) ∧
    (∀ (q : String) (r : SearchResponseData),
      (executeSearchQueryOnSuccess s q r).1.searchOffset =
        ofNullable r.searchOffset) := by
  have htrace : ∀ cs : List Bool,
      loadMoreDataSeq s cs =
        (s, cs.map (fun b => if b then [Action.failureCb true] else [])) := by
    intro cs
    induction cs with
    | nil => rfl
    | cons b bs ih =>
        simp only [loadMoreDataSeq, loadMoreData_terminal s h b, List.map_cons,
          ih]
  refine ⟨?_, ?_, ?_, fun q r => rfl⟩
  · rw [htrace]
  · rw [htrace]
  · rw [htrace]
    intro as hmem
    rcases List.mem_map.mp hmem with ⟨b, _, hb⟩
    cases b
    · rw [← hb]; rfl
    · rw [← hb]; rfl

/-- C3 witness: the sticky-terminal theorem applied to a concrete state
with a null offset and two further loadMoreData calls, the first with and
the second without a failure callback: the trace is exactly one
failure-callback invocation with true followed by an empty step. -/
theorem claim_C3_terminal_witness :
    (loadMoreDataSeq (ServiceState.mk (some "q") OffsetVal.null false 0)
        [true, false]).1 =
      ServiceState.mk (some "q") OffsetVal.null false 0 ∧
    (loadMoreDataSeq (ServiceState.mk (some "q") OffsetVal.null false 0)
        [true, false]).2 =
      [[Action.failureCb true], []] ∧
    (∀ as ∈ (loadMoreDataSeq
        (ServiceState.mk (some "q") OffsetVal.null false 0)
        [true, false]).2,
      countFetch as = 0) ∧
    (∀ (q : String) (r : SearchResponseData),
      (executeSearchQueryOnSuccess
          (ServiceState.mk (some "q") OffsetVal.null false 0)
          q r).1.searchOffset =
        ofNullable r.searchOffset) := by
  have h := claim_C3_terminal_state_sticky
    (ServiceState.mk (some "q") OffsetVal.null false 0) rfl [true, false]
  exact ⟨h.1, h.2.1.trans rfl, h.2.2.1, h.2.2.2⟩

/-- Helper: the change dictionary after a mutation sequence is the fold of
the three per-field step functions over the sequence. -/
lemma applyMutations_changeDict (ms : List NoteUpdate.NoteMutation)
    (n : NoteModel.NoteData) (d : NoteUpdate.NoteChangeDict) :
    (NoteUpdate.applyMutations (n, d) ms).2 =
      { title := ms.foldl NoteUpdate.titleStep d.title
        subtitle := ms.foldl NoteUpdate.subtitleStep d.subtitle
        content := ms.foldl NoteUpdate.contentStep d.content } := by
  induction ms generalizing n d with
  | nil => rfl
  | cons m ms ih =>
      cases m with
      | setNoteTitle t =>
          simpa [NoteUpdate.applyMutations, NoteUpdate.applyMutation,
            NoteUpdate.titleStep, NoteUpdate.subtitleStep,
            NoteUpdate.contentStep] using
            ih { n with title := t } { d with title := some t }
      | setNoteSubtitle s =>
          simpa [NoteUpdate.applyMutations, NoteUpdate.applyMutation,
            NoteUpdate.titleStep, NoteUpdate.subtitleStep,
            NoteUpdate.contentStep] using
            ih { n with subtitle := s } { d with subtitle := some s }
      | setNoteContent c =>
          simpa [NoteUpdate.applyMutations, NoteUpdate.applyMutation,
            NoteUpdate.titleStep, NoteUpdate.subtitleStep,
            NoteUpdate.contentStep] using
            ih { n with content := c } { d with content := some c }

/-- C8: starting from a note built from a backend dict and the empty
change dictionary, any sequence of setNoteTitle, setNoteSubtitle and
setNoteContent calls yields a change dictionary whose keys are exactly the
mutated fields, each holding its last-set value; a field never mutated
stays absent, and no unrelated field exists. -/
theorem claim_C8_change_dict_round_trip (d : NoteModel.NoteBackendDict)
    (ms : List NoteUpdate.NoteMutation) :
    (NoteUpdate.applyMutations
        (NoteModel.createFromBackendDict d, NoteUpdate.emptyChangeDict)
        ms).2 =
      { title := NoteUpdate.lastSetTitle ms
        subtitle := NoteUpdate.lastSetSubtitle ms
        content := NoteUpdate.lastSetContent ms } := by
  simpa [NoteUpdate.lastSetTitle, NoteUpdate.lastSetSubtitle,
    NoteUpdate.lastSetContent, NoteUpdate.emptyChangeDict] using
    applyMutations_changeDict ms (NoteModel.createFromBackendDict d)
      NoteUpdate.emptyChangeDict

/-- Helper: for a present element, indexOf finds a nonnegative index and
splicing one element there removes exactly the first occurrence. -/
lemma jsIndexOf_splice_erase {α : Type} [DecidableEq α] (l : List α)
    (x : α) (h : x ∈ l) :
    jsIndexOf l x > -1 ∧
    jsSpliceRemoveOne l (jsIndexOf l x).toNat = l.erase x := by
  induction l with
  | nil => cases h
  | cons a t ih =>
      by_cases hax : a = x
      · subst hax
        refine ⟨by simp [jsIndexOf], ?_⟩
        simp [jsIndexOf, jsSpliceRemoveOne]
      · have hx : x ∈ t := by
          rcases List.mem_cons.mp h with h1 | h2
          · exact absurd h1.symm hax
          · exact h2
        obtain ⟨h1, h2⟩ := ih hx
        have hr : jsIndexOf t x ≠ -1 := by omega
        have hidx : jsIndexOf (a :: t) x = jsIndexOf t x + 1 := by
          simp [jsIndexOf, hax, hr]
        refine ⟨by omega, ?_⟩
        have htn : (jsIndexOf t x + 1).toNat = (jsIndexOf t x).toNat + 1 := by
          omega
        rw [hidx, htn]
        have herase : (a :: t).erase x = a :: t.erase x := by
          simp [List.erase_cons, hax]
        rw [herase]
        simp only [jsSpliceRemoveOne, List.take_succ_cons, List.drop_succ_cons]
        rw [← h2]
        rfl

/-- C9: unpublishing a summary present in the published list removes
exactly its first occurrence from the published list, pushes the very same
summary onto the front of the draft list, decrements the published count
by one and increments the draft count by one; no other element of either
list changes. -/
theorem claim_C9_unpublish_moves_summary (nd : NotesPage.NoteData)
    (s : NoteSummary) (h : s ∈ nd.publishedNoteSummaryDicts) :
    (NotesPage.unpublishedNotesPost nd s).publishedNoteSummaryDicts =
      nd.publishedNoteSummaryDicts.erase s ∧
    (NotesPage.unpublishedNotesPost nd s).draftNoteSummaryDicts =
      s :: nd.draftNoteSummaryDicts ∧
    (NotesPage.unpublishedNotesPost nd s).numOfPublishedNotes =
      nd.numOfPublishedNotes - 1 ∧
    (NotesPage.unpublishedNotesPost nd s).numOfDraftNotes =
      nd.numOfDraftNotes + 1 := by
  obtain ⟨h1, h2⟩ := jsIndexOf_splice_erase nd.publishedNoteSummaryDicts s h
  refine ⟨?_, rfl, rfl, rfl⟩
  simp only [NotesPage.unpublishedNotesPost, if_pos h1]
  exact h2

/-- C9 witness: the unpublish theorem applied to a concrete payload with
two published and one draft summary, the results evaluated to explicit
lists and counters. -/
theorem claim_C9_unpublish_witness :
    sampleSummary 1 ∈ sampleNotesPageData.publishedNoteSummaryDicts ∧
    (NotesPage.unpublishedNotesPost sampleNotesPageData
        (sampleSummary 1)).publishedNoteSummaryDicts = [sampleSummary 0] ∧
    (NotesPage.unpublishedNotesPost sampleNotesPageData
        (sampleSummary 1)).draftNoteSummaryDicts =
      [sampleSummary 1, sampleSummary 2] ∧
    (NotesPage.unpublishedNotesPost sampleNotesPageData
        (sampleSummary 1)).numOfPublishedNotes = 1 ∧
    (NotesPage.unpublishedNotesPost sampleNotesPageData
        (sampleSummary 1)).numOfDraftNotes = 2 := by
  have h := claim_C9_unpublish_moves_summary sampleNotesPageData
    (sampleSummary 1) (by decide)
  exact ⟨by decide, h.1.trans (by decide), h.2.1.trans (by decide),
    h.2.2.1.trans (by decide), h.2.2.2.trans (by decide)⟩

/-- Helper: with nonnegative indices, the JavaScript slice is the drop of
the start index followed by taking the difference of the indices. -/
lemma jsSlice_eq_drop_take {α : Type} (l : List α) (a b : Int)
    (ha : 0 ≤ a) (hb : 0 ≤ b) :
    jsSlice l a b = (l.drop a.toNat).take (b - a).toNat := by
  have hna : ¬ a < 0 := by omega
  have hnb : ¬ b < 0 := by omega
  simp only [jsSlice, if_neg hna, if_neg hnb]
  by_cases hal : a ≤ (l.length : Int)
  · rw [min_eq_left hal]
    by_cases hbl : b ≤ (l.length : Int)
    · rw [min_eq_left hbl]
    · rw [min_eq_right (le_of_lt (by omega : (l.length : Int) < b))]
      have hlen : (l.drop a.toNat).length = l.length - a.toNat :=
        List.length_drop _ _
      rw [List.take_of_length_le (by omega : (l.drop a.toNat).length ≤
            ((l.length : Int) - a).toNat),
        List.take_of_length_le (by omega : (l.drop a.toNat).length ≤
            (b - a).toNat)]
  · rw [min_eq_right (le_of_lt (by omega : (l.length : Int) < a))]
    have h2 : l.drop a.toNat = [] := by
      rw [List.drop_eq_nil_iff]
      omega
    have hc : ((min b (l.length : Int)) - (l.length : Int)).toNat = 0 := by
      have := min_le_right b (l.length : Int)
      omega
    rw [hc, h2]
    simp

/-- C4: for pageNumber at least 1, pageSize at least 1 and totalCount
nonnegative, the window computed by the component is firstIndex equal to
(pageNumber - 1) * pageSize + 1 and lastIndex equal to the minimum of
pageNumber * pageSize and totalCount, one-based inclusive, and the
displayed slice consists of the buffer elements at zero-based positions
firstIndex - 1 through lastIndex - 1. -/
theorem claim_C4_page_window (pageNumber pageSize totalCount : Int)
    (buffer : List NoteSummary) (c : ComponentState)
    (h1 : 1 ≤ pageNumber) (h2 : 1 ≤ pageSize) (h3 : 0 ≤ totalCount) :
    (selectNoteSummariesToShow
        (calculateLastPostOnPageNum
          (calculateFirstPostOnPageNum
            { c with noteSummaries := buffer, totalNotes := totalCount }
            pageNumber pageSize)
          pageNumber pageSize)).firstPostOnPageNum =
      (pageNumber - 1) * pageSize + 1 ∧
    (selectNoteSummariesToShow
        (calculateLastPostOnPageNum
          (calculateFirstPostOnPageNum
            { c with noteSummaries := buffer, totalNotes := totalCount }
            pageNumber pageSize)
          pageNumber pageSize)).lastPostOnPageNum =
      min (pageNumber * pageSize) totalCount ∧
    (selectNoteSummariesToShow
        (calculateLastPostOnPageNum
          (calculateFirstPostOnPageNum
            { c with noteSummaries := buffer, totalNotes := totalCount }
            pageNumber pageSize)
          pageNumber pageSize)).noteSummariesToShow =
      (buffer.drop ((pageNumber - 1) * pageSize).toNat).take
        (min (pageNumber * pageSize) totalCount -
          (pageNumber - 1) * pageSize).toNat := by
  refine ⟨rfl, rfl, ?_⟩
  have ha : (0 : Int) ≤ (pageNumber - 1) * pageSize :=
    mul_nonneg (by omega) (by omega)
  have hps : (1 : Int) ≤ pageNumber * pageSize := by
    have := mul_le_mul h1 h2 (by omega) (by omega)
    omega
  have hb : (0 : Int) ≤ min (pageNumber * pageSize) totalCount :=
    le_min (by omega) h3
  have harg : (pageNumber - 1) * pageSize + 1 - 1 =
      (pageNumber - 1) * pageSize := by ring
  simp only [selectNoteSummariesToShow, calculateLastPostOnPageNum,
    calculateFirstPostOnPageNum]
  rw [harg, jsSlice_eq_drop_take buffer _ _ ha hb]

/-- C4 witness: the window theorem applied to a seven-element buffer with
totalCount 7 and pageSize 5: page 2 yields the last two items with
lastIndex 7 and firstIndex 6. -/
theorem claim_C4_page_window_witness :
    (1 : Int) ≤ 2 ∧ (1 : Int) ≤ 5 ∧ (0 : Int) ≤ 7 ∧
    (selectNoteSummariesToShow
        (calculateLastPostOnPageNum
          (calculateFirstPostOnPageNum
            { sampleComponent [] 1 true with
                noteSummaries := sampleBuffer7, totalNotes := 7 }
            2 5)
          2 5)).firstPostOnPageNum = 6 ∧
    (selectNoteSummariesToShow
        (calculateLastPostOnPageNum
          (calculateFirstPostOnPageNum
            { sampleComponent [] 1 true with
                noteSummaries := sampleBuffer7, totalNotes := 7 }
            2 5)
          2 5)).lastPostOnPageNum = 7 ∧
    (selectNoteSummariesToShow
        (calculateLastPostOnPageNum
          (calculateFirstPostOnPageNum
            { sampleComponent [] 1 true with
                noteSummaries := sampleBuffer7, totalNotes := 7 }
            2 5)
          2 5)).noteSummariesToShow =
      [sampleSummary 5, sampleSummary 6] := by
  have h := claim_C4_page_window 2 5 7 sampleBuffer7
    (sampleComponent [] 1 true) (by norm_num) (by norm_num) (by norm_num)
  exact ⟨by norm_num, by norm_num, by norm_num,
    h.1.trans (by norm_num), h.2.1.trans (by norm_num),
    h.2.2.trans (by decide)⟩

/-- C5: when the buffer already holds at least firstPostOnPageNum items,
loadPage issues no request and serves the slice from the buffer; when the
buffer is too short, the call delegates to exactly one loader and issues
at most one request: exactly one on the home feed, and on the search page
exactly one unless the in-flight guard or the terminal offset blocks the
fetch, in which case none; there is no retry loop in either case. -/
theorem claim_C5_loadPage_fetch_policy (c : ComponentState)
    (svc : ServiceState) :
    ((c.firstPostOnPageNum ≤ (c.noteSummaries.length : Int)) →
      loadPage c svc = (selectNoteSummariesToShow c, svc, [])) ∧
    (((c.noteSummaries.length : Int) < c.firstPostOnPageNum) →
      countFetch (loadPage c svc).2.2 ≤ 1 ∧
      (c.searchPageIsActive = false →
        countFetch (loadPage c svc).2.2 = 1) ∧
      (c.searchPageIsActive = true →
        (svc.isCurrentlyFetchingResults = false ∧
            hasReachedLastPage svc = false →
          countFetch (loadPage c svc).2.2 = 1) ∧
        (svc.isCurrentlyFetchingResults = true ∨
            hasReachedLastPage svc = true →
          countFetch (loadPage c svc).2.2 = 0))) := by
  constructor
  · intro hge
    have hnot : ¬ ((c.noteSummaries.length : Int) < c.firstPostOnPageNum) := by
      omega
    simp [loadPage, hnot]
  · intro hlt
    by_cases hsp : c.searchPageIsActive = true
    · have hmain : loadPage c svc =
          ({ c with showNoteCardsLoadingScreen := true },
            (loadMoreData svc true).1, (loadMoreData svc true).2) := by
        simp [loadPage, if_pos hlt, hsp]
      by_cases hguard : svc.isCurrentlyFetchingResults = true ∨
          hasReachedLastPage svc = true
      · have hlm : loadMoreData svc true =
            (svc, [Action.failureCb (hasReachedLastPage svc)]) := by
          rcases hguard with hg | hg
          · exact loadMoreData_inFlight svc hg true
          · rw [loadMoreData_terminal svc hg true, hg]; simp
        refine ⟨?_, ?_, fun _ => ⟨fun hq => ?_, fun _ => ?_⟩⟩
        · rw [hmain, hlm]; simp [countFetch]
        · intro hfalse; rw [hsp] at hfalse; cases hfalse
        · rcases hguard with hg | hg
          · rw [hq.1] at hg; cases hg
          · rw [hq.2] at hg; cases hg
        · rw [hmain, hlm]; simp [countFetch]
      · push_neg at hguard
        have hf : svc.isCurrentlyFetchingResults = false := by
          cases hflag : svc.isCurrentlyFetchingResults
          · rfl
          · exact absurd hflag hguard.1
        have hlp : hasReachedLastPage svc = false := by
          cases hflag : hasReachedLastPage svc
          · rfl
          · exact absurd hflag hguard.2
        have hlm : (loadMoreData svc true).2 =
            [Action.httpFetch
              (if offsetTruthy svc.searchOffset then
                getQueryUrl (getCurrentUrlQueryString svc) ++ "&offset=" ++
                  offsetToString svc.searchOffset
              else getQueryUrl (getCurrentUrlQueryString svc))] := by
          simp [loadMoreData, hf, hlp]
        refine ⟨?_, ?_, fun _ => ⟨fun _ => ?_, fun hq => ?_⟩⟩
        · rw [hmain, hlm]; simp [countFetch]
        · intro hfalse; rw [hsp] at hfalse; cases hfalse
        · rw [hmain, hlm]; simp [countFetch]
        · rcases hq with hg | hg
          · exact absurd hg hguard.1
          · exact absurd hg hguard.2
    · have hsp2 : c.searchPageIsActive = false := by
        cases hflag : c.searchPageIsActive
        · rfl
        · exact absurd hflag hsp
      have hmain : (loadPage c svc).2.2 =
          [Action.httpFetch
            (NOTE_HOMEPAGE_DATA_URL_TEMPLATE ++ "?offset=" ++
              toString (c.firstPostOnPageNum - 1))] := by
        simp [loadPage, if_pos hlt, hsp2, loadMoreNoteSummaries]
      refine ⟨?_, fun _ => ?_, fun hq => ?_⟩
      · rw [hmain]; simp [countFetch]
      · rw [hmain]; simp [countFetch]
      · rw [hq] at hsp2; cases hsp2

/-- C5 witness: the loadPage policy theorem applied to two concrete
calls: a buffer long enough for the page serves the slice with no
request, and a too-short buffer on the home feed issues exactly one
request. -/
theorem claim_C5_loadPage_witness :
    loadPage (sampleComponent sampleBuffer7 5 false) initialServiceState =
      (selectNoteSummariesToShow (sampleComponent sampleBuffer7 5 false),
        initialServiceState, []) ∧
    countFetch
      (loadPage (sampleComponent [] 1 false) initialServiceState).2.2 = 1 := by
  refine ⟨(claim_C5_loadPage_fetch_policy
      (sampleComponent sampleBuffer7 5 false) initialServiceState).1
      (by norm_num [sampleComponent, sampleBuffer7]), ?_⟩
  have h := (claim_C5_loadPage_fetch_policy (sampleComponent [] 1 false)
      initialServiceState).2 (by norm_num [sampleComponent])
  exact h.2.1 rfl

/-- C6: when a new query resolves, the initial-results subscriber rebuilds
the component state from scratch before using any result: the buffer
becomes exactly the response list (never a mix with the previous query),
the page number and the first index are reset to 1, and the service
stores the query together with the offset of the response; the component
copy of the offset is overwritten whenever the response is nonempty. -/
theorem claim_C6_new_query_resets (maxSearchCards : Int)
    (c : ComponentState) (svc : ServiceState) (q : String)
    (r : SearchResponseData) :
    (onInitialSearchResultsLoadedHandler maxSearchCards c r).noteSummaries =
      r.noteSummariesList ∧
    (onInitialSearchResultsLoadedHandler maxSearchCards c r).page = 1 ∧
    (onInitialSearchResultsLoadedHandler maxSearchCards c
        r).firstPostOnPageNum = 1 ∧
    (executeSearchQueryOnSuccess svc q r).1.searchOffset =
      ofNullable r.searchOffset ∧
    (executeSearchQueryOnSuccess svc q r).1.lastQuery = some q ∧
    (onInitialSearchResultsLoadedHandler maxSearchCards c r).searchOffset =
      (if 0 < r.noteSummariesList.length then r.searchOffset
        else c.searchOffset) := by
  by_cases hlen : 0 < r.noteSummariesList.length
  · refine ⟨?_, ?_, ?_, rfl, rfl, ?_⟩ <;>
      simp [onInitialSearchResultsLoadedHandler, loadSearchResultsPageData,
        calculateLastPostOnPageNum, selectNoteSummariesToShow, hlen]
  · have hnil : r.noteSummariesList = [] :=
      List.eq_nil_of_length_eq_zero (by omega)
    refine ⟨?_, ?_, ?_, rfl, rfl, ?_⟩ <;>
      simp [onInitialSearchResultsLoadedHandler, loadSearchResultsPageData,
        calculateLastPostOnPageNum, selectNoteSummariesToShow, hlen, hnil]

/-- C7: with content nonempty, every title of length 5 to 65 accepted by
the title regex validates with an empty issue list; an empty title, a
title rejected by the regex, a regex-accepted title shorter than 5, and a
regex-accepted title longer than 65 each put their specific message into
the returned list.  The theorem holds for every regex test function, the
compiled constant regex among them. -/
theorem claim_C7_validate_title (test : String → Bool)
    (note : NoteModel.NoteData) :
    (NoteModel.MIN_CHARS_IN_NOTE_TITLE ≤ note.title.length →
      note.title.length ≤ NoteModel.MAX_CHARS_IN_NOTE_TITLE →
      test note.title = true → note.content ≠ "" →
      NoteModel.validate test note = []) ∧
    (note.title = "" →
      "Note title should not be empty." ∈ NoteModel.validate test note) ∧
    (note.title ≠ "" → test note.title = false →
      "Note title contains invalid characters." ∈
        NoteModel.validate test note) ∧
    (note.title ≠ "" → test note.title = true →
      note.title.length < NoteModel.MIN_CHARS_IN_NOTE_TITLE →
      "Note title should not be less than 5 characters." ∈
        NoteModel.validate test note) ∧
    (test note.title = true →
      NoteModel.MAX_CHARS_IN_NOTE_TITLE < note.title.length →
      "Note title should not be more than 65 characters." ∈
        NoteModel.validate test note) := by
  have hmin : NoteModel.MIN_CHARS_IN_NOTE_TITLE = 5 := rfl
  have hmax : NoteModel.MAX_CHARS_IN_NOTE_TITLE = 65 := rfl
  have hmsg5 : ("Note title should not be less than " ++
      toString NoteModel.MIN_CHARS_IN_NOTE_TITLE ++ " characters.") =
      "Note title should not be less than 5 characters." := rfl
  have hmsg65 : ("Note title should not be more than " ++
      toString NoteModel.MAX_CHARS_IN_NOTE_TITLE ++ " characters.") =
      "Note title should not be more than 65 characters." := rfl
  refine ⟨?_, ?_, ?_, ?_, ?_⟩
  · intro h1 h2 h3 h4
    have hne : note.title ≠ "" := by
      intro e
      have h0 : note.title.length = 0 := by rw [e]; rfl
      omega
    have hn5 : ¬ note.title.length < NoteModel.MIN_CHARS_IN_NOTE_TITLE := by
      omega
    have hn65 : ¬ note.title.length > NoteModel.MAX_CHARS_IN_NOTE_TITLE := by
      omega
    simp [NoteModel.validate, hne, h3, hn5, hn65, h4]
  · intro h
    simp [NoteModel.validate, h]
  · intro hne h3f
    simp [NoteModel.validate, hne, h3f]
  · intro hne h3 hlt
    simp [NoteModel.validate, hne, h3, hlt, hmsg5]
  · intro h3 hgt
    have hne : note.title ≠ "" := by
      intro e
      have h0 : note.title.length = 0 := by rw [e]; rfl
      omega
    have hn5 : ¬ note.title.length < NoteModel.MIN_CHARS_IN_NOTE_TITLE := by
      omega
    simp [NoteModel.validate, hne, h3, hn5, hgt, hmsg65]

/-- C7 witness: the validate theorem applied with a concrete character
test to a valid eleven-character title with nonempty content, yielding no
issues, and to a three-character title, yielding the too-short message. -/
theorem claim_C7_validate_witness :
    NoteModel.validate (fun t => t.data.all (fun ch => ch.isAlphanum || ch = ' '))
      { id := "1"
        displayedAuthorName := "a"
        title := "Hello World"
        subtitle := "s"
        content := "body"
        urlFragment := "u"
        lastUpdated := none
        publishedOn := none } = [] ∧
    "Note title should not be less than 5 characters." ∈
      NoteModel.validate (fun t => t.data.all (fun ch => ch.isAlphanum || ch = ' '))
        { id := "1"
          displayedAuthorName := "a"
          title := "Hey"
          subtitle := "s"
          content := "body"
          urlFragment := "u"
          lastUpdated := none
          publishedOn := none } := by
  refine ⟨(claim_C7_validate_title _ _).1 (by decide) (by decide) (by decide)
      (by decide),
    (claim_C7_validate_title _ _).2.2.2.1 (by decide) (by decide) (by decide)⟩

end Theorems

